import Mathlib

/-!
Verification of the mixture-of-claudes expert dispatcher.

The development shallowly embeds the TypeScript tools:
* `analyzeTask` — `AnalyzeTaskTool.execute` (expert selection);
* the seven `consult_*` expert tools;
* `synthCore` / `synthesizeExecute` — `SynthesizeExpertsTool.execute`
  together with its private helpers.

JavaScript `query.match(/a|b|c/)` on these alternation-of-literals
patterns is "query contains one of the substrings", modelled by
`matchAny`.  JS `Array.prototype.sort` (stable since ES2019) with the
comparator `(a, b) => score(b) - score(a)` is modelled by the stable
insertion sort `sortByScoreDesc`.  `JSON.parse` is a host builtin; its
outcome is modelled as an `Except String Json` input.
-/

namespace MixtureOfClaudes

/-- JS `s.toLowerCase()` (ASCII range; every string in the repository is
ASCII).  Defined by a structural map over the characters. -/
def lowerStr (s : String) : String :=
  String.mk (s.data.map Char.toLower)

/-- `startsWithCL p q` is true iff the char list `p` is a prefix of `q`. -/
def startsWithCL : List Char → List Char → Bool
  | [], _ => true
  | _ :: _, [] => false
  | a :: p, b :: q => a == b && startsWithCL p q

/-- `hasSubCL p q` is true iff `p` occurs as a contiguous substring of `q`. -/
def hasSubCL (p : List Char) : List Char → Bool
  | [] => startsWithCL p []
  | b :: t => startsWithCL p (b :: t) || hasSubCL p t

/-- JS `q.includes(pat)` / single-literal regex test. -/
def strHasSub (q pat : String) : Bool :=
  hasSubCL pat.data q.data

/-- JS `q.match(/p1|p2|…/)` for a pattern that is an alternation of literals. -/
def matchAny (q : String) (pats : List String) : Bool :=
  pats.any (fun p => strHasSub q p)

/-- JS string truthiness of an optional string (`undefined` and `""` are falsy). -/
def jsTruthy (o : Option String) : Bool :=
  match o with
  | some s => s != ""
  | none => false

/-- JS `o || d` for an optional string field (`undefined` and `""` fall back). -/
def jsOrStr (o : Option String) (d : String) : String :=
  match o with
  | some s => if s = "" then d else s
  | none => d

/-! ## Task selector (`AnalyzeTaskTool.execute`) -/

def engineeringPatterns : List String :=
  ["code", "function", "class", "variable", "algorithm", "bug", "implement",
   "refactor", "debug", "syntax"]

def performancePatterns : List String :=
  ["slow", "fast", "optimize", "performance", "speed", "lag", "bottleneck",
   "memory", "cpu", "cache"]

def securityPatterns : List String :=
  ["auth", "login", "password", "vulnerability", "secure", "hack", "encrypt",
   "csrf", "xss", "sql", "token"]

def designPatterns : List String :=
  ["user", "interface", "design", "layout", "usability", "experience", "ui",
   "ux", "accessibility", "looks"]

def devopsPatterns : List String :=
  ["deploy", "infrastructure", "server", "scaling", "monitoring", "devops",
   "ci", "cd", "docker", "kubernetes"]

def edgeCasePatterns : List String :=
  ["failure", "edge case", "problem", "issue", "concern", "risk", "crash",
   "break"]

structure TaskAnalysis where
  selectedExperts : List String
  complexity : String
  contextEfficiency : String
deriving DecidableEq

/-- The contents of the `experts` set at the `Array.from` point of
`AnalyzeTaskTool.execute`.  The JS `Set` only ever receives distinct
string literals in a fixed order, so it is modelled as an ordered list of
the matching domains. -/
def candidateExperts (userQuery : String) : List String :=
  let query := lowerStr userQuery
  let primary :=
    (if matchAny query engineeringPatterns then ["consult_software_engineer"] else []) ++
    (if matchAny query performancePatterns then ["consult_performance_expert"] else []) ++
    (if matchAny query securityPatterns then ["consult_security_expert"] else []) ++
    (if matchAny query designPatterns then ["consult_designer"] else []) ++
    (if matchAny query devopsPatterns then ["consult_devops_expert"] else [])
  if 2 ≤ primary.length ∨ matchAny query edgeCasePatterns = true then
    primary ++ ["consult_edge_cases_expert"]
  else primary

/-- `AnalyzeTaskTool.execute`: default fallback, truncation (`splice(3)`
keeps the first three entries), and the two derived fields. -/
def analyzeTask (userQuery : String) : TaskAnalysis :=
  let experts := candidateExperts userQuery
  let selected := if experts.length = 0 then ["consult_software_engineer"] else experts
  let selected := if 3 < selected.length then selected.take 3 else selected
  { selectedExperts := selected
    complexity :=
      if selected.length = 1 then "LOW"
      else if selected.length = 2 then "MEDIUM" else "HIGH"
    contextEfficiency :=
      if selected.length ≤ 2 then "OPTIMAL"
      else if selected.length = 3 then "MODERATE" else "HEAVY" }

/-- The query of the spec's complex-query scenario. -/
def scenarioQuery : String :=
  "Our login system is slow and users are complaining about security"

/-- A query matches none of the six domain pattern sets of the selector. -/
def matchesNoDomain (q : String) : Bool :=
  !(matchAny (lowerStr q) engineeringPatterns) &&
  !(matchAny (lowerStr q) performancePatterns) &&
  !(matchAny (lowerStr q) securityPatterns) &&
  !(matchAny (lowerStr q) designPatterns) &&
  !(matchAny (lowerStr q) devopsPatterns) &&
  !(matchAny (lowerStr q) edgeCasePatterns)

/-! ## Expert Units (`Consult*Tool.execute`)

Each tool computes a `type` from the lower-cased query by ordered regex
tests and indexes a fixed response table, then attaches `questions`.
The embedding fuses the table lookup into a nested conditional, one
branch per table entry, each branch holding that entry's canned data
together with the tool's `questions` value. -/

structure ConsultResponse where
  priority : String
  confidence : String
  coreInsight : String
  immediateActions : List String
  risks : List String
  questions : List String
deriving DecidableEq

/-- For regex `/p1.*p2/`: the suffix of `q` after the first occurrence of
`p1`, or `none` when `p1` does not occur. -/
def subSuffix (p : List Char) : List Char → Option (List Char)
  | [] => if startsWithCL p [] then some [] else none
  | b :: t =>
    if startsWithCL p (b :: t) then some ((b :: t).drop p.length)
    else subSuffix p t

/-- JS `q.match(/p1.*p2/)`: some occurrence of `p1` is followed (at or
after its end) by an occurrence of `p2`. -/
def strSeqMatch (q p1 p2 : String) : Bool :=
  match subSuffix p1.data q.data with
  | some rest => hasSubCL p2.data rest
  | none => false

/-- `ConsultSecurityExpertTool.execute` (`context`/`techStack` are only
declared in the schema, never read). -/
def consultSecurityExpert (userQuery : String) : ConsultResponse :=
  let query := lowerStr userQuery
  let questions := ["What sensitive data is being handled?",
                    "Are there compliance requirements?"]
  if matchAny query ["auth", "login", "password", "token"] then
    { priority := "HIGH", confidence := "HIGH",
      coreInsight := "Implement secure session management, strong password hashing, and MFA for sensitive operations",
      immediateActions := ["Use bcrypt for password hashing", "Implement secure session cookies", "Add MFA for admin access", "Use RBAC for authorization"],
      risks := ["Session hijacking", "Password brute force attacks", "Privilege escalation"],
      questions := questions }
  else if matchAny query ["sql", "injection", "xss", "csrf"] then
    { priority := "HIGH", confidence := "HIGH",
      coreInsight := "Use parameterized queries, input validation, and output encoding to prevent injection attacks",
      immediateActions := ["Replace string concatenation with parameterized queries", "Add input validation", "Implement CSP headers", "Use DOMPurify for XSS prevention"],
      risks := ["Data breach through SQL injection", "XSS attacks", "CSRF vulnerabilities"],
      questions := questions }
  else if matchAny query ["data", "encrypt", "privacy"] then
    { priority := "HIGH", confidence := "HIGH",
      coreInsight := "Encrypt sensitive data at rest and in transit, implement proper access controls",
      immediateActions := ["Encrypt sensitive database fields", "Enforce HTTPS everywhere", "Add data masking in logs", "Implement access controls"],
      risks := ["Data exposure", "Privacy violations", "Compliance issues"],
      questions := questions }
  else if matchAny query ["upload", "file"] then
    { priority := "MEDIUM", confidence := "HIGH",
      coreInsight := "Validate file types, scan for malware, store outside web root with size limits",
      immediateActions := ["Whitelist allowed file types", "Add file size limits", "Store uploads outside web root", "Implement virus scanning"],
      risks := ["Malicious file execution", "Path traversal attacks", "Server compromise"],
      questions := questions }
  else
    { priority := "MEDIUM", confidence := "MEDIUM",
      coreInsight := "Add security headers, dependency scanning, and comprehensive logging for security events",
      immediateActions := ["Add security headers", "Scan dependencies for vulnerabilities", "Implement security logging", "Set up incident response"],
      risks := ["Various attack vectors", "Outdated dependencies", "Poor incident response"],
      questions := questions }

/-- `ConsultDesignerTool.execute`. -/
def consultDesigner (userQuery : String) : ConsultResponse :=
  let query := lowerStr userQuery
  let questions := ["Who is the target user?", "What\x27s the primary user goal?"]
  if matchAny query ["ugly", "looks", "visual", "design"] then
    { priority := "MEDIUM", confidence := "HIGH",
      coreInsight := "Improve visual hierarchy, contrast, and spacing for better user comprehension",
      immediateActions := ["Audit color contrast ratios", "Establish consistent spacing scale", "Create clear visual hierarchy", "Simplify UI elements"],
      risks := ["Visual changes confuse existing users", "Brand inconsistency", "Development complexity"],
      questions := questions }
  else if strSeqMatch query "user" "complain" || matchAny query ["confusing", "hard to use"] then
    { priority := "HIGH", confidence := "HIGH",
      coreInsight := "Simplify user flows and reduce cognitive load for task completion",
      immediateActions := ["Map current user journey", "Identify friction points", "Simplify navigation", "Add clear progress indicators"],
      risks := ["User behavior change resistance", "Feature discoverability issues", "Learning curve for new design"],
      questions := questions }
  else if matchAny query ["mobile", "responsive", "device"] then
    { priority := "HIGH", confidence := "MEDIUM",
      coreInsight := "Design mobile-first with touch-friendly interactions and flexible layouts",
      immediateActions := ["Audit mobile experience", "Increase touch target sizes", "Optimize for thumb navigation", "Test on real devices"],
      risks := ["Performance impact on mobile", "Feature parity across devices", "Testing complexity"],
      questions := questions }
  else if matchAny query ["access", "disability", "screen reader"] then
    { priority := "HIGH", confidence := "HIGH",
      coreInsight := "Ensure WCAG compliance with proper semantic markup and keyboard navigation",
      immediateActions := ["Add alt text to images", "Implement keyboard navigation", "Test with screen readers", "Check color contrast"],
      risks := ["Development time increase", "Complex interaction patterns", "Legal compliance requirements"],
      questions := questions }
  else
    { priority := "MEDIUM", confidence := "MEDIUM",
      coreInsight := "Conduct user research to validate design decisions and improve experience",
      immediateActions := ["Define user personas", "Create user journey maps", "Design system audit", "Usability testing plan"],
      risks := ["Resource allocation for research", "Timeline impact", "Stakeholder buy-in needed"],
      questions := questions }

/-- `ConsultEdgeCasesExpertTool.execute`. -/
def consultEdgeCasesExpert (userQuery : String) : ConsultResponse :=
  let query := lowerStr userQuery
  let questions := ["What happens when this fails at 3 AM?",
                    "How does this behave with 10x expected load?",
                    "What failure modes are we missing?"]
  if matchAny query ["performance", "slow"] then
    { priority := "HIGH", confidence := "MEDIUM",
      coreInsight := "Test under realistic load conditions, monitor for memory leaks and cascade failures",
      immediateActions := ["Load test with realistic data", "Monitor memory usage over time", "Add circuit breakers", "Test mobile performance"],
      risks := ["System crashes under peak load", "Memory exhaustion", "Cascade failures from timeouts"],
      questions := questions }
  else if matchAny query ["user", "interface", "ui"] then
    { priority := "MEDIUM", confidence := "HIGH",
      coreInsight := "Test with assistive technologies, extremely long content, and degraded network conditions",
      immediateActions := ["Test with screen readers", "Handle long content gracefully", "Test keyboard navigation", "Add progressive enhancement"],
      risks := ["Legal compliance issues", "Layout breaks", "Inaccessible to disabled users"],
      questions := questions }
  else if matchAny query ["data", "database"] then
    { priority := "HIGH", confidence := "HIGH",
      coreInsight := "Test concurrent operations, timezone edge cases, and special character handling",
      immediateActions := ["Test concurrent database writes", "Handle timezone conversions properly", "Test with Unicode characters", "Monitor connection pools"],
      risks := ["Data corruption", "Application crashes", "Character encoding issues"],
      questions := questions }
  else if matchAny query ["security", "auth"] then
    { priority := "HIGH", confidence := "MEDIUM",
      coreInsight := "Test race conditions, error handling paths, and timing attack vectors",
      immediateActions := ["Test concurrent authentication", "Sanitize error messages", "Use constant-time operations", "Add rate limiting"],
      risks := ["Privilege escalation", "Information disclosure", "Session hijacking"],
      questions := questions }
  else if matchAny query ["api", "integration"] then
    { priority := "MEDIUM", confidence := "MEDIUM",
      coreInsight := "Handle API failures gracefully with proper retry logic and fallback mechanisms",
      immediateActions := ["Implement exponential backoff", "Validate API responses", "Design idempotent operations", "Plan for API versioning"],
      risks := ["Service degradation", "Data inconsistency", "Lost events"],
      questions := questions }
  else
    { priority := "MEDIUM", confidence := "MEDIUM",
      coreInsight := "Plan for deployment failures, configuration drift, and third-party dependencies",
      immediateActions := ["Implement safe deployment strategy", "Use infrastructure as code", "Monitor disk usage", "Add dependency circuit breakers"],
      risks := ["Deployment failures", "Environment inconsistencies", "System resource exhaustion"],
      questions := questions }

/-- `ConsultPerformanceExpertTool.execute`; `currentMetrics` only selects
the trailing `questions`. -/
def consultPerformanceExpert (userQuery : String) (currentMetrics : Option String) :
    ConsultResponse :=
  let query := lowerStr userQuery
  let questions :=
    if jsTruthy currentMetrics then ["What are acceptable performance targets?"]
    else ["Do you have current performance metrics?", "What\x27s the performance goal?"]
  if matchAny query ["slow", "lag", "speed", "fast"] then
    { priority := "HIGH", confidence := "HIGH",
      coreInsight := "Profile bottlenecks first, then optimize critical path with lazy loading and caching",
      immediateActions := ["Profile performance with dev tools", "Implement code splitting", "Add lazy loading", "Optimize bundle size"],
      risks := ["Premature optimization", "Breaking existing functionality", "Complexity increase"],
      questions := questions }
  else if matchAny query ["memory", "cpu", "resource"] then
    { priority := "HIGH", confidence := "MEDIUM",
      coreInsight := "Monitor memory/CPU usage patterns, fix leaks, optimize resource allocation",
      immediateActions := ["Add memory monitoring", "Profile CPU usage", "Fix memory leaks", "Optimize algorithms"],
      risks := ["System instability during optimization", "Monitoring overhead", "Resource constraints"],
      questions := questions }
  else if matchAny query ["database", "query", "db"] then
    { priority := "HIGH", confidence := "HIGH",
      coreInsight := "Add indexes for frequent queries, use connection pooling, implement caching",
      immediateActions := ["Analyze slow queries", "Add missing indexes", "Implement connection pooling", "Add query caching"],
      risks := ["Index overhead on writes", "Cache invalidation complexity", "Connection pool exhaustion"],
      questions := questions }
  else if matchAny query ["cache", "caching"] then
    { priority := "MEDIUM", confidence := "HIGH",
      coreInsight := "Cache expensive operations, use appropriate TTL, implement cache invalidation strategy",
      immediateActions := ["Identify cacheable operations", "Implement Redis caching", "Set appropriate TTL", "Add cache monitoring"],
      risks := ["Cache invalidation bugs", "Memory usage increase", "Stale data issues"],
      questions := questions }
  else
    { priority := "MEDIUM", confidence := "MEDIUM",
      coreInsight := "Establish performance baselines, implement monitoring, create performance budgets",
      immediateActions := ["Set up performance monitoring", "Create performance baselines", "Implement load testing", "Define SLA targets"],
      risks := ["Monitoring overhead", "Performance budget constraints", "Tool complexity"],
      questions := questions }

/-- `ConsultDevOpsExpertTool.execute`; `infrastructure` only selects the
trailing `questions`. -/
def consultDevOpsExpert (userQuery : String) (infrastructure : Option String) :
    ConsultResponse :=
  let query := lowerStr userQuery
  let questions :=
    if jsTruthy infrastructure then ["What\x27s the current infrastructure setup?"]
    else ["What infrastructure are you using?", "What are the scaling requirements?"]
  if matchAny query ["deploy", "deployment", "release", "rollback"] then
    { priority := "HIGH", confidence := "HIGH",
      coreInsight := "Implement blue-green deployment with automated rollback and health checks",
      immediateActions := ["Set up blue-green deployment", "Add automated health checks", "Configure rollback triggers", "Implement canary releases"],
      risks := ["Deployment failures during peak traffic", "Database migration issues", "Service downtime"],
      questions := questions }
  else if matchAny query ["monitor", "logging", "observability", "metrics"] then
    { priority := "MEDIUM", confidence := "HIGH",
      coreInsight := "Monitor golden signals (latency, traffic, errors, saturation) with proper alerting",
      immediateActions := ["Set up centralized logging", "Implement metrics collection", "Configure alerting rules", "Create operational dashboards"],
      risks := ["Alert fatigue", "Monitoring overhead", "Missing critical issues"],
      questions := questions }
  else if matchAny query ["scale", "scaling", "load", "capacity"] then
    { priority := "HIGH", confidence := "MEDIUM",
      coreInsight := "Implement auto-scaling with load balancing and database read replicas",
      immediateActions := ["Configure auto-scaling groups", "Set up load balancers", "Add database read replicas", "Implement CDN"],
      risks := ["Scaling costs", "Database bottlenecks", "Network latency"],
      questions := questions }
  else if matchAny query ["ci/cd", "pipeline", "automation", "build"] then
    { priority := "MEDIUM", confidence := "HIGH",
      coreInsight := "Automate CI/CD pipeline with testing, security scanning, and infrastructure as code",
      immediateActions := ["Set up GitOps workflow", "Automate testing pipeline", "Add security scanning", "Implement infrastructure as code"],
      risks := ["Pipeline complexity", "Build failures", "Security vulnerabilities in automation"],
      questions := questions }
  else
    { priority := "MEDIUM", confidence := "MEDIUM",
      coreInsight := "Establish operational excellence with documentation, disaster recovery, and cost optimization",
      immediateActions := ["Create operational runbooks", "Set up disaster recovery", "Implement cost monitoring", "Document procedures"],
      risks := ["Operational complexity", "Cost overruns", "Poor disaster recovery"],
      questions := questions }

/-- `ConsultManagerTool.execute`; `timeline` only selects the trailing
`questions`. -/
def consultManager (userQuery : String) (timeline : Option String) : ConsultResponse :=
  let query := lowerStr userQuery
  let questions :=
    if jsTruthy timeline then ["Is this timeline realistic?"]
    else ["What\x27s the deadline?", "Who are the key stakeholders?"]
  if matchAny query ["urgent", "deadline", "asap", "rush"] then
    { priority := "HIGH", confidence := "HIGH",
      coreInsight := "Deliver MVP first, defer non-critical features, manage stakeholder expectations",
      immediateActions := ["Define MVP scope", "Set up daily standups", "Identify blockers", "Communicate timeline risks"],
      risks := ["Quality compromised under pressure", "Team burnout", "Technical debt accumulation"],
      questions := questions }
  else if matchAny query ["plan", "roadmap", "strategy", "timeline"] then
    { priority := "MEDIUM", confidence := "HIGH",
      coreInsight := "Break work into phases, map dependencies, build in buffer time",
      immediateActions := ["Create project roadmap", "Define milestones", "Map dependencies", "Estimate effort"],
      risks := ["Scope creep", "Unrealistic timelines", "Resource availability"],
      questions := questions }
  else if matchAny query ["team", "resource", "people", "capacity"] then
    { priority := "HIGH", confidence := "MEDIUM",
      coreInsight := "Assess team capacity, identify skill gaps, plan knowledge transfer",
      immediateActions := ["Audit team skills", "Balance workload", "Plan knowledge sharing", "Identify training needs"],
      risks := ["Key person dependencies", "Skill bottlenecks", "Team capacity limits"],
      questions := questions }
  else if matchAny query ["priority", "important", "first", "order"] then
    { priority := "MEDIUM", confidence := "HIGH",
      coreInsight := "Prioritize by business value, user impact, and technical dependencies",
      immediateActions := ["Score features by value", "Map technical dependencies", "Estimate effort", "Create priority matrix"],
      risks := ["Stakeholder disagreement", "Priority conflicts", "Changing requirements"],
      questions := questions }
  else
    { priority := "MEDIUM", confidence := "MEDIUM",
      coreInsight := "Establish clear communication, regular checkpoints, and risk monitoring",
      immediateActions := ["Set up regular meetings", "Define success criteria", "Create risk register", "Plan communication"],
      risks := ["Poor communication", "Unclear expectations", "Missed dependencies"],
      questions := questions }

/-- `ConsultSoftwareEngineerTool.generateSmartQuestions`. -/
def generateSmartQuestions (codeSnippet : Option String)
    (hasImportIssue hasSchedulingConcern : Bool) : List String :=
  if hasImportIssue && hasSchedulingConcern then
    ["Are there other modules with similar cross-dependencies?",
     "What\x27s the intended relationship between scheduling and assistant modules?"]
  else if jsTruthy codeSnippet then
    ["What\x27s the expected behavior vs actual behavior?"]
  else
    ["Can you show me the specific code causing issues?"]

/-- `ConsultSoftwareEngineerTool.generateEngineeringAnalysis` (the
`execute` wrapper only logs).  `context`/`techStack` are only logged. -/
def consultSoftwareEngineer (userQuery : String) (codeSnippet : Option String) :
    ConsultResponse :=
  let query := lowerStr userQuery
  let hasImportIssue := strHasSub query "import" || strHasSub query "from"
  let hasSchedulingConcern := strHasSub query "scheduling" || strHasSub query "calendar"
  let hasAssistantLogic := strHasSub query "assistant" || strHasSub query "operation"
  let hasDuplicateIssue := strHasSub query "duplicate" || strHasSub query "same"
  let questions := generateSmartQuestions codeSnippet hasImportIssue hasSchedulingConcern
  if hasImportIssue && hasSchedulingConcern && hasAssistantLogic then
    { priority := "HIGH", confidence := "HIGH",
      coreInsight := "Cross-module imports creating circular dependencies - mealScheduling importing assistant operations",
      immediateActions := ["Map out current import dependencies between modules", "Move assistant-specific operations to assistantOperations module", "Remove cross-module imports from mealScheduling", "Create proper interfaces between modules", "Test each module in isolation"],
      risks := ["Breaking existing functionality during refactor", "Hidden dependencies not immediately visible", "Regression in scheduling or assistant features"],
      questions := questions }
  else if hasImportIssue && hasDuplicateIssue then
    { priority := "HIGH", confidence := "MEDIUM",
      coreInsight := "WHAT: Structure needs fixing. WHY: Current design blocks progress. FIX: Clear boundaries.",
      immediateActions := ["WHAT: Map current painful points", "WHAT: Define simple module boundaries", "WHY: Enable independent development", "AVOID: Grand rewrites, clever patterns"],
      risks := ["Over-engineering", "Team learning curve", "Future maintainability"],
      questions := questions }
  else if matchAny query ["bug", "error", "broken", "fix", "debug"] then
    { priority := "HIGH", confidence := "HIGH",
      coreInsight := "WHAT: Bug blocking functionality. WHY: Impacts users. APPROACH: Fix immediately, minimal change.",
      immediateActions := ["WHAT: Reproduce the issue reliably", "WHAT: Identify root cause precisely", "WHY: Prevents bandaid fixes that break later", "HOW: Let LLM implement minimal, targeted fix"],
      risks := ["Fix introduces new bugs", "Root cause not addressed", "Production deployment risk"],
      questions := questions }
  else if matchAny query ["refactor", "clean", "messy", "improve"] then
    { priority := "MEDIUM", confidence := "HIGH",
      coreInsight := "WHAT: Code needs cleanup. WHY: Improve maintainability. AVOID: Overengineering.",
      immediateActions := ["WHAT: Identify code that\x27s hard to understand", "WHAT: Extract clear, focused functions", "WHY: Make code self-documenting", "PRINCIPLE: Simple > Clever, always"],
      risks := ["Breaking existing functionality", "Time investment vs business value", "Incomplete refactoring"],
      questions := questions }
  else if matchAny query ["implement", "build", "create", "add"] then
    { priority := "MEDIUM", confidence := "MEDIUM",
      coreInsight := "WHAT: New feature required. WHY: Business need. START: Simplest working version.",
      immediateActions := ["WHAT: Define minimal requirements", "WHAT: Build simplest working solution", "WHY: Avoid premature optimization", "MANTRA: Make it work, then make it better"],
      risks := ["Scope creep", "Integration complexity", "Missing edge cases"],
      questions := questions }
  else
    { priority := "MEDIUM", confidence := "MEDIUM",
      coreInsight := "WHAT: Task needs attention. WHY: Support development goals. HOW: You decide best approach.",
      immediateActions := ["WHAT: Understand the real need", "WHY: Solutions must solve actual problems", "HOW: Trust LLM to choose approach", "REMEMBER: You\x27re a collaborator, not a rule engine"],
      risks := ["Unclear requirements", "Technical debt accumulation", "Poor documentation"],
      questions := questions }

/-! ## Code locator (`CodeLocatorExpertTool`)

Only the `locations` component is consumed by the synthesizer; the
`recommendations`/`nextSteps` lists of the locator are not modelled. -/

structure CodeLocation where
  filePath : String
  lineNumber : Option Nat
  codeSnippet : String
  confidence : String
  relevance : String
deriving DecidableEq

/-- `CodeLocatorExpertTool.extractSearchTerms`. -/
def extractSearchTerms (query : String) : List String :=
  (if strHasSub query "import" || strHasSub query "from" then
    ["import", "from", "export", "module.exports", "require"]
    ++ (if strHasSub query "mealscheduling" then
          ["mealScheduling", "meal", "scheduling"] else [])
    ++ (if strHasSub query "assistant" then
          ["assistantOperations", "assistant", "operations"] else [])
  else []) ++
  (if strHasSub query "sort" || strHasSub query "order" then
    ["sort", "order", "ORDER BY", "ASC", "DESC", "orderBy"] else []) ++
  (if strHasSub query "contact" || strHasSub query "name" || strHasSub query "display" then
    ["contact", "name", "display_name", "first_name", "last_name"] else []) ++
  (if strHasSub query "duplicate" || strHasSub query "same" || strHasSub query "intelligent" then
    ["executeCalendarOperation", "executePlacesOperation", "intelligent*handler"] else [])

/-- `CodeLocatorExpertTool.determineSearchStrategy`. -/
def determineSearchStrategy (query : String) (searchType : Option String) : String :=
  if jsTruthy searchType then
    "Focused search for " ++ searchType.getD "" ++ " constructs"
  else if strHasSub query "sort" || strHasSub query "order" then
    "Database query analysis - focus on sorting implementation"
  else if strHasSub query "api" || strHasSub query "endpoint" then
    "API layer analysis - focus on service endpoints"
  else if strHasSub query "component" || strHasSub query "ui" then
    "Frontend component analysis - focus on UI components"
  else
    "General codebase analysis - broad search pattern"

/-- `CodeLocatorExpertTool.generateSearchLocations` (its `query` argument
is unused in the source as well). -/
def generateSearchLocations (query : String) (searchTerms : List String)
    (strategy : String) : List CodeLocation :=
  (if searchTerms.contains "import" || searchTerms.contains "mealScheduling" then
    [{ filePath := "src/backend/lib/assistantOperations/", lineNumber := none,
       codeSnippet := "grep -r \x27from.*mealScheduling\x27 .",
       confidence := "HIGH", relevance := "Find cross-module imports from mealScheduling" },
     { filePath := "src/backend/lib/assistantOperations/mealSchedulingAssistant.ts",
       lineNumber := none, codeSnippet := "Look for imports at top of file",
       confidence := "HIGH", relevance := "Main file with problematic imports" },
     { filePath := "src/backend/services/assistantManagerService.ts", lineNumber := none,
       codeSnippet := "Check how operations are imported and used",
       confidence := "HIGH", relevance := "Service layer using these operations" }]
  else []) ++
  (if searchTerms.contains "executeCalendarOperation" ||
      searchTerms.contains "intelligent*handler" then
    [{ filePath := "**/*Handler.ts", lineNumber := none,
       codeSnippet := "grep -r \x27intelligentHandler\x27 --include=\x27*.ts\x27",
       confidence := "HIGH", relevance := "Find all intelligent handler implementations" },
     { filePath := "src/backend/", lineNumber := none,
       codeSnippet := "grep -r \x27executeCalendarOperation\\|executePlacesOperation\x27 .",
       confidence := "HIGH", relevance := "Find duplicate operation executions" }]
  else []) ++
  (if strHasSub strategy "sorting" then
    [{ filePath := "src/backend/services/", lineNumber := none,
       codeSnippet := "Search for ORDER BY clauses and sorting logic",
       confidence := "HIGH", relevance := "Database sorting implementation" }]
  else [])

/-- The `locations` component of `CodeLocatorExpertTool.execute`. -/
def codeLocatorLocations (userQuery : String) (searchType : Option String) :
    List CodeLocation :=
  let query := lowerStr userQuery
  let searchTerms := extractSearchTerms query
  let strategy := determineSearchStrategy query searchType
  generateSearchLocations query searchTerms strategy

/-! ## Synthesizer (`SynthesizeExpertsTool`, src/unnamed/part_000) -/

/-- The parsed shape the synthesizer reads from each expert entry
(every field optional, matching the TS `ExpertResponse` of
`SynthesizeExpertsTool`). -/
structure ExpertResponse where
  priority : Option String := none
  confidence : Option String := none
  coreInsight : Option String := none
  immediateActions : Option (List String) := none
  risks : Option (List String) := none
deriving DecidableEq

structure SynthesizedResponse where
  overallPriority : String
  conflictResolution : String
  unifiedPlan : List String
  criticalRisks : List String
  nextSteps : List String
  successCriteria : List String
  codeLocations : Option (List CodeLocation) := none
deriving DecidableEq

/-- JS `Set` deduplication: keep the first occurrence of each element,
in encounter order. -/
def dedupKeepFirst {α : Type} [DecidableEq α] : List α → List α
  | [] => []
  | x :: xs => x :: (dedupKeepFirst xs).filter (fun y => y != x)

/-- Stable insertion step for the descending-by-score sort: `a` moves past
exactly the elements of strictly larger score (JS comparator
`(a, b) => score(b) - score(a)`). -/
def insertDesc {α : Type} (score : α → Nat) (a : α) : List α → List α
  | [] => [a]
  | b :: t => if score a < score b then b :: insertDesc score a t else a :: b :: t

/-- Stable sort, descending by `score`; ties keep encounter order, as
ES2019 `Array.prototype.sort` guarantees. -/
def sortByScoreDesc {α : Type} (score : α → Nat) : List α → List α
  | [] => []
  | x :: xs => insertDesc score x (sortByScoreDesc score xs)

/-- `SynthesizeExpertsTool.getActionPriority`. -/
def getActionPriority (action : String) : Nat :=
  let actionLower := lowerStr action
  if matchAny actionLower ["security", "vulnerability", "fix", "patch"] then 10
  else if matchAny actionLower ["test", "validation", "verify"] then 9
  else if matchAny actionLower ["backup", "monitor", "log"] then 8
  else if matchAny actionLower ["implement", "create", "build"] then 7
  else if matchAny actionLower ["optimize", "improve", "enhance"] then 6
  else if matchAny actionLower ["document", "plan", "design"] then 5
  else 1

/-- `SynthesizeExpertsTool.getRiskScore` (the compliance test sits after
the user test, as in the source). -/
def getRiskScore (risk : String) : Nat :=
  let riskLower := lowerStr risk
  if matchAny riskLower ["security", "breach", "vulnerability", "attack"] then 10
  else if matchAny riskLower ["data loss", "corruption", "crash"] then 9
  else if matchAny riskLower ["production", "downtime", "failure"] then 8
  else if matchAny riskLower ["performance", "slow", "timeout"] then 7
  else if matchAny riskLower ["user", "experience", "usability"] then 6
  else if matchAny riskLower ["compliance", "legal", "regulation"] then 8
  else 1

/-- `SynthesizeExpertsTool.createUnifiedPlan` (`insights` is accepted and
ignored, as in the source). -/
def createUnifiedPlan (actions : List String) (insights : List String) : List String :=
  (sortByScoreDesc getActionPriority (dedupKeepFirst actions)).take 6

/-- `SynthesizeExpertsTool.prioritizeRisks` (no truncation here; the
caller slices to 3). -/
def prioritizeRisks (risks : List String) : List String :=
  sortByScoreDesc getRiskScore (dedupKeepFirst risks)

/-- `SynthesizeExpertsTool.resolveConflicts`. -/
def resolveConflicts (experts : List ExpertResponse) : String :=
  let highPriorityCount := (experts.map (·.priority)).countP (fun p => p == some "HIGH")
  if 2 ≤ highPriorityCount then
    "Multiple high-priority concerns identified - address security and performance first"
  else if 3 ≤ experts.length then
    "Multi-expert consensus needed - prioritize by business impact and technical risk"
  else
    "Expert opinions aligned - proceed with recommended approach"

/-- `SynthesizeExpertsTool.generateSuccessCriteria` (takes the already
lower-cased query; its `experts` argument is unused in the source too). -/
def generateSuccessCriteria (query : String) (experts : List ExpertResponse) :
    List String :=
  (["Implementation completed successfully"]
   ++ (if matchAny query ["performance", "slow", "speed"] then
        ["Performance targets met", "No performance regressions"] else [])
   ++ (if matchAny query ["security", "auth", "login"] then
        ["Security vulnerabilities addressed", "Compliance requirements met"] else [])
   ++ (if matchAny query ["user", "interface", "design"] then
        ["User experience improved", "Accessibility requirements met"] else [])
   ++ (if matchAny query ["bug", "error", "fix"] then
        ["Bug resolved", "No new issues introduced"] else [])
   ++ ["All tests passing", "Documentation updated"]).take 4

/-- The success path of `SynthesizeExpertsTool.execute`, applied to the
already-extracted expert entries. -/
def synthCore (experts : List ExpertResponse) (userQuery : String)
    (includeCodeLocation : Bool) : SynthesizedResponse :=
  let query := lowerStr userQuery
  let priorities := experts.map (fun e => jsOrStr e.priority "MEDIUM")
  let hasHigh := priorities.contains "HIGH"
  let hasCritical := decide (3 ≤ priorities.length) && hasHigh
  let overallPriority :=
    if hasCritical then "CRITICAL"
    else if hasHigh then "HIGH"
    else if priorities.contains "MEDIUM" then "MEDIUM" else "LOW"
  let coreInsights := (experts.map (·.coreInsight)).filterMap
    (fun o => match o with
      | some s => if s = "" then none else some s
      | none => none)
  let allActions := experts.flatMap (fun e => e.immediateActions.getD [])
  let allRisks := experts.flatMap (fun e => e.risks.getD [])
  let unifiedPlan := createUnifiedPlan allActions coreInsights
  { overallPriority := overallPriority
    conflictResolution := resolveConflicts experts
    unifiedPlan := unifiedPlan
    criticalRisks := (prioritizeRisks allRisks).take 3
    nextSteps := unifiedPlan.take 5
    successCriteria := generateSuccessCriteria query experts
    codeLocations :=
      if includeCodeLocation then some (codeLocatorLocations userQuery none) else none }

/-- The catch branch of `SynthesizeExpertsTool.execute`. -/
def synthFallback (errMsg : String) : SynthesizedResponse :=
  { overallPriority := "MEDIUM"
    conflictResolution := "Parsing error: " ++ errMsg
    unifiedPlan := ["Clarify requirements", "Implement step by step", "Test thoroughly"]
    criticalRisks := ["Unclear requirements", "Implementation complexity"]
    nextSteps := ["Review expert feedback", "Create implementation plan"]
    successCriteria := ["Requirements met", "No regressions", "Stakeholder approval"]
    codeLocations := none }

/-! ### The JSON front end of the synthesizer -/

/-- JSON values, the possible results of `JSON.parse`. -/
inductive Json where
  | null
  | bool (b : Bool)
  | num (n : Int)
  | str (s : String)
  | arr (elems : List Json)
  | obj (fields : List (String × Json))

/-- The array/object discrimination of `execute`: an array is used as is,
anything else goes through `Object.values`, which throws a `TypeError` on
`null` and yields the property values (for a string, its characters; for
other primitives, nothing). -/
def toExpertArray : Json → Except String (List Json)
  | .arr xs => .ok xs
  | .null => .error "Cannot convert undefined or null to object"
  | .obj fields => .ok (fields.map (·.2))
  | .str s => .ok (s.data.map (fun c => .str (String.mk [c])))
  | .bool _ => .ok []
  | .num _ => .ok []

/-- JS property read `j[k]`: throws a `TypeError` on `null`, is
`undefined` on primitives and absent keys. -/
def jsonField (j : Json) (k : String) : Except String (Option Json) :=
  match j with
  | .null => .error ("Cannot read properties of null (reading \x27" ++ k ++ "\x27)")
  | .obj fields => .ok ((fields.find? (fun f => f.1 == k)).map (·.2))
  | _ => .ok none

def asOptString : Option Json → Option String
  | some (.str s) => some s
  | _ => none

/-- Read a JSON array of strings; members of another shape are outside
the TS `ExpertResponse` type and are not modelled. -/
def asOptStrList : Option Json → Option (List String)
  | some (.arr xs) => some (xs.filterMap (fun j =>
      match j with
      | .str s => some s
      | _ => none))
  | _ => none

/-- Extraction of one expert entry; reading any property of a `null`
entry throws, which the surrounding `try` turns into the fallback. -/
def jsonToExpert (j : Json) : Except String ExpertResponse := do
  let p ← jsonField j "priority"
  let ci ← jsonField j "coreInsight"
  let ia ← jsonField j "immediateActions"
  let rk ← jsonField j "risks"
  let cf ← jsonField j "confidence"
  .ok { priority := asOptString p, confidence := asOptString cf,
        coreInsight := asOptString ci, immediateActions := asOptStrList ia,
        risks := asOptStrList rk }

def jsonToExperts (j : Json) : Except String (List ExpertResponse) := do
  let xs ← toExpertArray j
  xs.mapM jsonToExpert

/-- `SynthesizeExpertsTool.execute`.  `parsed` is the outcome of the host
builtin `JSON.parse` on the `expertResponses` string: `.ok` a `Json`
value for valid JSON, `.error` the parse message otherwise.  Any error
escaping the `try` block lands in `synthFallback`. -/
def synthesizeExecute (parsed : Except String Json) (userQuery : String)
    (includeCodeLocation : Bool) : SynthesizedResponse :=
  match parsed.bind jsonToExperts with
  | .error e => synthFallback e
  | .ok experts => synthCore experts userQuery includeCodeLocation

/-! ## Properties of the stable sort and the deduplication -/
theorem insertDesc_perm {α : Type} (score : α → Nat) (a : α) (l : List α) :
    (insertDesc score a l).Perm (a :: l) := by
  induction l with
  | nil => exact List.Perm.refl _
  | cons b t ih =>
    simp only [insertDesc]
    split
    · exact (ih.cons b).trans (List.Perm.swap a b t)
    · exact List.Perm.refl _

theorem sortByScoreDesc_perm {α : Type} (score : α → Nat) (l : List α) :
    (sortByScoreDesc score l).Perm l := by
  induction l with
  | nil => exact List.Perm.refl _
  | cons x xs ih =>
    exact (insertDesc_perm score x _).trans (ih.cons x)

theorem insertDesc_pairwise {α : Type} (score : α → Nat) (a : α) {l : List α}
    (h : l.Pairwise (fun x y => score y ≤ score x)) :
    (insertDesc score a l).Pairwise (fun x y => score y ≤ score x) := by
  induction l with
  | nil => simp [insertDesc]
  | cons b t ih =>
    simp only [insertDesc]
    rw [List.pairwise_cons] at h
    split
    · rename_i hlt
      refine List.pairwise_cons.mpr ⟨?_, ih h.2⟩
      intro x hx
      have hx' : x ∈ a :: t := (insertDesc_perm score a t).mem_iff.mp hx
      rcases List.mem_cons.mp hx' with rfl | hxt
      · exact Nat.le_of_lt hlt
      · exact h.1 x hxt
    · rename_i hge
      refine List.pairwise_cons.mpr ⟨?_, List.pairwise_cons.mpr h⟩
      intro x hx
      rcases List.mem_cons.mp hx with rfl | hxt
      · exact Nat.le_of_not_lt hge
      · exact Nat.le_trans (h.1 x hxt) (Nat.le_of_not_lt hge)

theorem sortByScoreDesc_pairwise {α : Type} (score : α → Nat) (l : List α) :
    (sortByScoreDesc score l).Pairwise (fun x y => score y ≤ score x) := by
  induction l with
  | nil => simp [sortByScoreDesc]
  | cons x xs ih => exact insertDesc_pairwise score x ih

theorem insertDesc_eq_cons {α : Type} (score : α → Nat) (a : α) {l : List α}
    (h : ∀ x ∈ l, score x ≤ score a) : insertDesc score a l = a :: l := by
  cases l with
  | nil => rfl
  | cons b t =>
    simp only [insertDesc]
    rw [if_neg]
    exact Nat.not_lt.mpr (h b (List.mem_cons_self b t))

theorem sortByScoreDesc_eq_self {α : Type} (score : α → Nat) {l : List α}
    (h : l.Pairwise (fun x y => score y ≤ score x)) :
    sortByScoreDesc score l = l := by
  induction l with
  | nil => rfl
  | cons x xs ih =>
    rw [List.pairwise_cons] at h
    simp only [sortByScoreDesc]
    rw [ih h.2]
    exact insertDesc_eq_cons score x h.1

theorem insertDesc_filter {α : Type} (score : α → Nat) (a : α) (l : List α) (k : Nat) :
    (insertDesc score a l).filter (fun x => score x == k) =
      if score a == k then a :: l.filter (fun x => score x == k)
      else l.filter (fun x => score x == k) := by
  induction l with
  | nil =>
    by_cases h : score a = k <;> simp [insertDesc, List.filter_cons, h]
  | cons b t ih =>
    simp only [insertDesc]
    split
    · rename_i hlt
      by_cases hb : score b = k
      · have ha : ¬ (score a = k) := by omega
        simp [List.filter, hb, ha, ih]
      · simp only [List.filter_cons]
        rw [ih]
        by_cases hak : score a = k <;> simp [hak, hb]
    · simp [List.filter_cons]

theorem sortByScoreDesc_filter {α : Type} (score : α → Nat) (l : List α) (k : Nat) :
    (sortByScoreDesc score l).filter (fun x => score x == k) =
      l.filter (fun x => score x == k) := by
  induction l with
  | nil => rfl
  | cons x xs ih =>
    simp only [sortByScoreDesc]
    rw [insertDesc_filter]
    by_cases hx : score x = k <;> simp [List.filter_cons, hx, ih]

theorem dedupKeepFirst_sublist {α : Type} [DecidableEq α] (l : List α) :
    (dedupKeepFirst l).Sublist l := by
  induction l with
  | nil => exact List.Sublist.refl _
  | cons x xs ih =>
    exact ((List.filter_sublist _).trans ih).cons₂ x

theorem dedupKeepFirst_nodup {α : Type} [DecidableEq α] (l : List α) :
    (dedupKeepFirst l).Nodup := by
  induction l with
  | nil => exact List.nodup_nil
  | cons x xs ih =>
    refine List.nodup_cons.mpr ⟨?_, ih.filter _⟩
    intro hmem
    have := (List.mem_filter.mp hmem).2
    simp at this

theorem dedupKeepFirst_eq_self {α : Type} [DecidableEq α] {l : List α}
    (h : l.Nodup) : dedupKeepFirst l = l := by
  induction l with
  | nil => rfl
  | cons x xs ih =>
    rw [List.nodup_cons] at h
    simp only [dedupKeepFirst]
    rw [ih h.2, List.filter_eq_self.mpr]
    intro a ha
    simp only [bne_iff_ne, ne_eq]
    exact fun hax => h.1 (hax ▸ ha)

/-- The deduplicate–sort–truncate pipeline shared by `createUnifiedPlan`
and `prioritizeRisks`: the output has no duplicates, is at most `n` long,
is sorted by descending score, and within each score class is a sublist
of the raw input (ties keep first-occurrence order). -/
theorem sortDedupTake_spec {α : Type} [DecidableEq α] (score : α → Nat) (n : Nat)
    (l : List α) :
    ((sortByScoreDesc score (dedupKeepFirst l)).take n).Nodup ∧
    ((sortByScoreDesc score (dedupKeepFirst l)).take n).length ≤ n ∧
    ((sortByScoreDesc score (dedupKeepFirst l)).take n).Pairwise
      (fun x y => score y ≤ score x) ∧
    ∀ k, (((sortByScoreDesc score (dedupKeepFirst l)).take n).filter
            (fun x => score x == k)).Sublist (l.filter (fun x => score x == k)) := by
  have hnodup : (sortByScoreDesc score (dedupKeepFirst l)).Nodup :=
    (sortByScoreDesc_perm score _).symm.nodup (dedupKeepFirst_nodup l)
  refine ⟨hnodup.sublist (List.take_sublist n _), ?_, ?_, ?_⟩
  · simp [List.length_take]
  · exact (sortByScoreDesc_pairwise score _).sublist (List.take_sublist n _)
  · intro k
    have h1 : (((sortByScoreDesc score (dedupKeepFirst l)).take n).filter
        (fun x => score x == k)).Sublist ((sortByScoreDesc score
        (dedupKeepFirst l)).filter (fun x => score x == k)) :=
      (List.take_sublist n _).filter _
    rw [sortByScoreDesc_filter] at h1
    exact h1.trans ((dedupKeepFirst_sublist l).filter _)

theorem contains_eq_true_iff {α : Type} [BEq α] [LawfulBEq α] (l : List α) (a : α) :
    l.contains a = true ↔ a ∈ l := List.elem_iff

/-- The `overallPriority` cascade of `synthCore`, written out. -/
theorem overallPriority_eq (experts : List ExpertResponse) (q : String) (c : Bool) :
    (synthCore experts q c).overallPriority =
      (if decide (3 ≤ (experts.map fun e => jsOrStr e.priority "MEDIUM").length) &&
          (experts.map fun e => jsOrStr e.priority "MEDIUM").contains "HIGH" then "CRITICAL"
       else if (experts.map fun e => jsOrStr e.priority "MEDIUM").contains "HIGH" then "HIGH"
       else if (experts.map fun e => jsOrStr e.priority "MEDIUM").contains "MEDIUM" then "MEDIUM"
       else "LOW") := rfl

theorem startsWithCL_append (p r : List Char) : startsWithCL p (p ++ r) = true := by
  induction p with
  | nil => rfl
  | cons a p ih => simp [startsWithCL, ih]

theorem startsWithCL_str_append (p r : String) :
    startsWithCL p.data (p ++ r).data = true := by
  rw [String.data_append]
  exact startsWithCL_append p.data r.data

/-- The selection returned by `analyzeTask`, written out over
`candidateExperts`. -/
theorem analyzeTask_selectedExperts_eq (q : String) :
    (analyzeTask q).selectedExperts =
      (if 3 < (if (candidateExperts q).length = 0 then ["consult_software_engineer"]
               else candidateExperts q).length
       then (if (candidateExperts q).length = 0 then ["consult_software_engineer"]
             else candidateExperts q).take 3
       else (if (candidateExperts q).length = 0 then ["consult_software_engineer"]
             else candidateExperts q)) := rfl

/-- The response contract of the spec's §8 first property: enumerated
`priority`/`confidence`, non-empty list fields. -/
def validExpertResponse (r : ConsultResponse) : Prop :=
  (r.priority = "HIGH" ∨ r.priority = "MEDIUM" ∨ r.priority = "LOW") ∧
  (r.confidence = "HIGH" ∨ r.confidence = "MEDIUM" ∨ r.confidence = "LOW") ∧
  r.immediateActions ≠ [] ∧ r.risks ≠ [] ∧ r.questions ≠ []

instance (r : ConsultResponse) : Decidable (validExpertResponse r) := by
  unfold validExpertResponse
  infer_instance

theorem security_valid (q : String) : validExpertResponse (consultSecurityExpert q) := by
  simp only [consultSecurityExpert]
  repeat' split
  all_goals decide

theorem engineer_valid (q : String) (cs : Option String) :
    validExpertResponse (consultSoftwareEngineer q cs) := by
  simp only [consultSoftwareEngineer, generateSmartQuestions]
  repeat' split
  all_goals decide

theorem designer_valid (q : String) : validExpertResponse (consultDesigner q) := by
  simp only [consultDesigner]
  repeat' split
  all_goals decide

theorem edge_valid (q : String) : validExpertResponse (consultEdgeCasesExpert q) := by
  simp only [consultEdgeCasesExpert]
  repeat' split
  all_goals decide

theorem performance_valid (q : String) (m : Option String) :
    validExpertResponse (consultPerformanceExpert q m) := by
  simp only [consultPerformanceExpert]
  repeat' split
  all_goals decide

theorem devops_valid (q : String) (i : Option String) :
    validExpertResponse (consultDevOpsExpert q i) := by
  simp only [consultDevOpsExpert]
  repeat' split
  all_goals decide

theorem manager_valid (q : String) (t : Option String) :
    validExpertResponse (consultManager q t) := by
  simp only [consultManager]
  repeat' split
  all_goals decide

/-- A parsed expert entry reporting only `priority: "HIGH"`. -/
def highOnlyExpert : ExpertResponse := { priority := some "HIGH" }

/-- A parsed expert entry reporting only `priority: "MEDIUM"`. -/
def mediumOnlyExpert : ExpertResponse := { priority := some "MEDIUM" }

/-- A parsed expert entry reporting only `priority: "LOW"`. -/
def lowOnlyExpert : ExpertResponse := { priority := some "LOW" }

/-! ## The claims -/

/-- Claim C1, counterexample.  On the scenario query the selector does
not pick `consult_software_engineer` at all: none of the engineering
keywords occur in the query, so the claimed final set
`{software_engineer, performance, security}` is wrong. -/
theorem scenario_query_claim_false :
    "consult_software_engineer" ∉ (analyzeTask scenarioQuery).selectedExperts ∧
    (analyzeTask scenarioQuery).selectedExperts ≠
      ["consult_software_engineer", "consult_performance_expert",
       "consult_security_expert"] := by
  decide

/-- Claim C1, amended.  For the query "Our login system is slow and
users are complaining about security", `analyze_task` returns exactly
`[consult_performance_expert, consult_security_expert, consult_designer]`
(performance via "slow", security via "login", designer via "user";
the edge-cases expert is appended by the two-or-more rule and then
truncated away), of length 3, with complexity HIGH. -/
theorem scenario_query_selects_perf_sec_designer :
    analyzeTask scenarioQuery =
      { selectedExperts := ["consult_performance_expert", "consult_security_expert",
                            "consult_designer"],
        complexity := "HIGH", contextEfficiency := "MODERATE" } := by
  decide

/-- Claim C2.  If some parsed expert entry reports priority "HIGH", then
`synthesize_experts` returns overallPriority "CRITICAL" when there are at
least 3 entries and "HIGH" when there are fewer than 3. -/
theorem synthesize_high_escalation (experts : List ExpertResponse) (q : String)
    (c : Bool) (hHigh : ∃ e ∈ experts, e.priority = some "HIGH") :
    (3 ≤ experts.length → (synthCore experts q c).overallPriority = "CRITICAL") ∧
    (experts.length < 3 → (synthCore experts q c).overallPriority = "HIGH") := by
  have hcontains :
      (experts.map fun e => jsOrStr e.priority "MEDIUM").contains "HIGH" = true := by
    refine (contains_eq_true_iff _ _).mpr ?_
    obtain ⟨e, he, hp⟩ := hHigh
    exact List.mem_map.mpr ⟨e, he, by rw [hp]; rfl⟩
  constructor
  · intro h3
    have hlen : 3 ≤ (experts.map fun e => jsOrStr e.priority "MEDIUM").length := by
      simpa using h3
    have hcond : (decide (3 ≤ (experts.map fun e => jsOrStr e.priority "MEDIUM").length) &&
        (experts.map fun e => jsOrStr e.priority "MEDIUM").contains "HIGH") = true := by
      rw [hcontains, Bool.and_true]
      exact decide_eq_true hlen
    rw [overallPriority_eq, if_pos hcond]
  · intro h3
    have hlen : ¬ 3 ≤ (experts.map fun e => jsOrStr e.priority "MEDIUM").length := by
      simpa using Nat.not_le.mpr h3
    have hcond : (decide (3 ≤ (experts.map fun e => jsOrStr e.priority "MEDIUM").length) &&
        (experts.map fun e => jsOrStr e.priority "MEDIUM").contains "HIGH") = false := by
      rw [decide_eq_false hlen, Bool.false_and]
    rw [overallPriority_eq, if_neg (by rw [hcond]; exact Bool.false_ne_true),
      if_pos hcontains]

/-- Claim C2, witness: three entries with one HIGH give CRITICAL, a
single HIGH entry gives HIGH. -/
theorem synthesize_high_escalation_witness :
    (synthCore [highOnlyExpert, mediumOnlyExpert, lowOnlyExpert]
      "fix login bug" false).overallPriority = "CRITICAL" ∧
    (synthCore [highOnlyExpert] "fix login bug" false).overallPriority = "HIGH" :=
  ⟨(synthesize_high_escalation [highOnlyExpert, mediumOnlyExpert, lowOnlyExpert]
      "fix login bug" false (by decide)).1 (by decide),
   (synthesize_high_escalation [highOnlyExpert] "fix login bug" false
      (by decide)).2 (by decide)⟩

/-- Claim C3, counterexample.  A single entry with priority "LOW" has no
HIGH report, yet `synthesize_experts` returns "LOW", not the claimed
"MEDIUM": the MEDIUM default applies only when some entry's priority is
"MEDIUM", empty, or missing. -/
theorem no_high_claims_medium_false :
    (∀ e ∈ [lowOnlyExpert], e.priority ≠ some "HIGH") ∧
    (synthCore [lowOnlyExpert] "fix login bug" false).overallPriority ≠ "MEDIUM" := by
  decide

/-- Claim C3, amended.  With no entry reporting "HIGH",
`synthesize_experts` returns "MEDIUM" exactly when some entry's
defaulted priority is "MEDIUM" (its priority is "MEDIUM", empty, or
absent), and "LOW" otherwise. -/
theorem synthesize_no_high_medium_or_low (experts : List ExpertResponse) (q : String)
    (c : Bool) (hNoHigh : ∀ e ∈ experts, e.priority ≠ some "HIGH") :
    (synthCore experts q c).overallPriority =
      if experts.any (fun e => jsOrStr e.priority "MEDIUM" == "MEDIUM") then "MEDIUM"
      else "LOW" := by
  have hcontains :
      (experts.map fun e => jsOrStr e.priority "MEDIUM").contains "HIGH" = false := by
    rw [← Bool.not_eq_true, contains_eq_true_iff]
    intro hmem
    obtain ⟨e, he, hp⟩ := List.mem_map.mp hmem
    rcases h : e.priority with - | s
    · rw [h] at hp; simp [jsOrStr] at hp
    · rw [h] at hp
      by_cases hs : s = ""
      · simp [jsOrStr, hs] at hp
      · simp [jsOrStr, hs] at hp
        exact hNoHigh e he (by rw [h, hp])
  have hmed : (experts.map fun e => jsOrStr e.priority "MEDIUM").contains "MEDIUM" =
      experts.any (fun e => jsOrStr e.priority "MEDIUM" == "MEDIUM") := by
    rw [Bool.eq_iff_iff, contains_eq_true_iff, List.any_eq_true]
    constructor
    · intro hmem
      obtain ⟨e, he, hp⟩ := List.mem_map.mp hmem
      exact ⟨e, he, beq_iff_eq.mpr hp⟩
    · rintro ⟨e, he, hp⟩
      exact List.mem_map.mpr ⟨e, he, eq_of_beq hp⟩
  have hcond : (decide (3 ≤ (experts.map fun e => jsOrStr e.priority "MEDIUM").length) &&
      (experts.map fun e => jsOrStr e.priority "MEDIUM").contains "HIGH") = false := by
    rw [hcontains, Bool.and_false]
  rw [overallPriority_eq, if_neg (by rw [hcond]; exact Bool.false_ne_true),
    if_neg (by rw [hcontains]; exact Bool.false_ne_true), hmed]

/-- Claim C3 amended, witness: one MEDIUM-only entry. -/
theorem synthesize_no_high_medium_or_low_witness :
    (synthCore [mediumOnlyExpert] "fix login bug" false).overallPriority =
      if [mediumOnlyExpert].any (fun e => jsOrStr e.priority "MEDIUM" == "MEDIUM")
      then "MEDIUM" else "LOW" :=
  synthesize_no_high_medium_or_low [mediumOnlyExpert] "fix login bug" false (by decide)

/-- Claim C4.  Whenever `JSON.parse` fails on `expertResponses`,
`synthesize_experts` returns the fixed fallback: no error propagates,
overallPriority is "MEDIUM", and conflictResolution is
"Parsing error: " followed by the parse message, hence starts with
"Parsing error:". -/
theorem synthesize_parse_error_fallback (err q : String) (c : Bool) :
    synthesizeExecute (.error err) q c = synthFallback err ∧
    (synthesizeExecute (.error err) q c).overallPriority = "MEDIUM" ∧
    (synthesizeExecute (.error err) q c).conflictResolution = "Parsing error: " ++ err ∧
    startsWithCL ("Parsing error:").data
      (synthesizeExecute (.error err) q c).conflictResolution.data = true := by
  refine ⟨rfl, rfl, rfl, ?_⟩
  show startsWithCL ("Parsing error:").data ("Parsing error: " ++ err).data = true
  have h : ("Parsing error: " : String) = "Parsing error:" ++ " " := by decide
  rw [h, String.append_assoc]
  exact startsWithCL_str_append _ _

/-- Claim C5.  On every successfully parsed input, `unifiedPlan` and
`criticalRisks` have no duplicates, respect the length bounds 6 and 3,
are sorted by descending keyword score, and keep tied elements in their
original first-occurrence order (each score class of the output is a
sublist of the gathered input). -/
theorem synthesize_plan_risks_invariants (experts : List ExpertResponse) (q : String)
    (c : Bool) :
    ((synthCore experts q c).unifiedPlan.Nodup ∧
     (synthCore experts q c).unifiedPlan.length ≤ 6 ∧
     (synthCore experts q c).unifiedPlan.Pairwise
       (fun x y => getActionPriority y ≤ getActionPriority x) ∧
     ∀ k, ((synthCore experts q c).unifiedPlan.filter
             (fun x => getActionPriority x == k)).Sublist
           ((experts.flatMap (fun e => e.immediateActions.getD [])).filter
             (fun x => getActionPriority x == k))) ∧
    ((synthCore experts q c).criticalRisks.Nodup ∧
     (synthCore experts q c).criticalRisks.length ≤ 3 ∧
     (synthCore experts q c).criticalRisks.Pairwise
       (fun x y => getRiskScore y ≤ getRiskScore x) ∧
     ∀ k, ((synthCore experts q c).criticalRisks.filter
             (fun x => getRiskScore x == k)).Sublist
           ((experts.flatMap (fun e => e.risks.getD [])).filter
             (fun x => getRiskScore x == k))) := by
  have hplan : (synthCore experts q c).unifiedPlan =
      (sortByScoreDesc getActionPriority
        (dedupKeepFirst (experts.flatMap (fun e => e.immediateActions.getD [])))).take 6 :=
    rfl
  have hrisks : (synthCore experts q c).criticalRisks =
      (sortByScoreDesc getRiskScore
        (dedupKeepFirst (experts.flatMap (fun e => e.risks.getD [])))).take 3 := rfl
  rw [hplan, hrisks]
  exact ⟨sortDedupTake_spec getActionPriority 6 _, sortDedupTake_spec getRiskScore 3 _⟩

/-- Claim C6, counterexample.  On the parse-error fallback, `nextSteps`
(`["Review expert feedback", "Create implementation plan"]`) is not the
5-element prefix of the fallback `unifiedPlan`, so the claim fails for
unparseable inputs. -/
theorem nextSteps_prefix_claim_false :
    (synthesizeExecute (.error "Unexpected token") "fix login bug" false).nextSteps ≠
      ((synthesizeExecute (.error "Unexpected token") "fix login bug"
        false).unifiedPlan).take 5 := by
  decide

/-- Claim C6, amended.  On every successfully parsed input (the
non-fallback path), `nextSteps` equals the first 5 elements of
`unifiedPlan`. -/
theorem synthesize_nextSteps_prefix (experts : List ExpertResponse) (q : String)
    (c : Bool) :
    (synthCore experts q c).nextSteps = (synthCore experts q c).unifiedPlan.take 5 := rfl

/-- Claim C7.  `analyze_task` always selects between 1 and 3 experts,
and on a query matching none of the six domain pattern sets it returns
exactly `["consult_software_engineer"]` with complexity LOW and
contextEfficiency OPTIMAL. -/
theorem analyzeTask_bounds_and_default (q : String) :
    (1 ≤ (analyzeTask q).selectedExperts.length ∧
      (analyzeTask q).selectedExperts.length ≤ 3) ∧
    (matchesNoDomain q = true →
      analyzeTask q = { selectedExperts := ["consult_software_engineer"],
                        complexity := "LOW", contextEfficiency := "OPTIMAL" }) := by
  constructor
  · rw [analyzeTask_selectedExperts_eq]
    by_cases h0 : (candidateExperts q).length = 0 <;>
      by_cases h3 : 3 < (candidateExperts q).length <;>
      simp [h0, h3, List.length_take] <;> omega
  · intro h
    simp only [matchesNoDomain, Bool.and_eq_true, Bool.not_eq_true'] at h
    obtain ⟨⟨⟨⟨⟨h1, h2⟩, h3⟩, h4⟩, h5⟩, h6⟩ := h
    simp [analyzeTask, candidateExperts, h1, h2, h3, h4, h5, h6]

/-- Claim C7, witness: "hello" matches no domain and falls back to the
software engineer alone. -/
theorem analyzeTask_bounds_and_default_witness :
    matchesNoDomain "hello" = true ∧
    analyzeTask "hello" = { selectedExperts := ["consult_software_engineer"],
                            complexity := "LOW", contextEfficiency := "OPTIMAL" } :=
  ⟨by decide, (analyzeTask_bounds_and_default "hello").2 (by decide)⟩

/-- Claim C8.  `createUnifiedPlan` is idempotent: applied to its own
output (with any insights arguments, which it ignores) it returns that
output unchanged. -/
theorem createUnifiedPlan_idempotent (actions insights insights' : List String) :
    createUnifiedPlan (createUnifiedPlan actions insights) insights' =
      createUnifiedPlan actions insights := by
  unfold createUnifiedPlan
  obtain ⟨hnodup, hlen, hsorted, -⟩ := sortDedupTake_spec getActionPriority 6 actions
  rw [dedupKeepFirst_eq_self hnodup, sortByScoreDesc_eq_self getActionPriority hsorted,
    List.take_of_length_le hlen]

/-- Claim C9.  For every query (and optional fields), each of the seven
Expert Units returns a response with `priority` and `confidence` in
{HIGH, MEDIUM, LOW} and non-empty `immediateActions`, `risks` and
`questions`: unmatched queries fall back to the always-present `general`
table entry. -/
theorem consult_tools_always_valid :
    (∀ q, validExpertResponse (consultSecurityExpert q)) ∧
    (∀ q cs, validExpertResponse (consultSoftwareEngineer q cs)) ∧
    (∀ q, validExpertResponse (consultDesigner q)) ∧
    (∀ q, validExpertResponse (consultEdgeCasesExpert q)) ∧
    (∀ q m, validExpertResponse (consultPerformanceExpert q m)) ∧
    (∀ q i, validExpertResponse (consultDevOpsExpert q i)) ∧
    (∀ q t, validExpertResponse (consultManager q t)) :=
  ⟨security_valid, engineer_valid, designer_valid, edge_valid,
   performance_valid, devops_valid, manager_valid⟩

/-- Claim C10.  The JSON text "null" parses successfully (to the valid
JSON value `null`), yet `synthesize_experts` still lands in the fallback
whose conflictResolution starts with "Parsing error:", because
`Object.values(null)` throws; reaching the fallback therefore does not
imply the input was malformed JSON. -/
theorem synthesize_null_json_fallback :
    synthesizeExecute (.ok Json.null) "fix login bug" false =
      synthFallback "Cannot convert undefined or null to object" ∧
    (synthesizeExecute (.ok Json.null) "fix login bug" false).overallPriority =
      "MEDIUM" ∧
    startsWithCL ("Parsing error:").data
      (synthesizeExecute (.ok Json.null) "fix login bug"
        false).conflictResolution.data = true := by
  decide

end MixtureOfClaudes
